import Mathlib

/-!
Shallow embedding of the `cli-wallet` repository (files `src/main.rs` and
`src/account.rs`).  The wallet engine (`iota_wallet`), the notification sink
(`notify_rust`) and the terminal library (`dialoguer`) are external
collaborators: they are modelled as oracle functions bundled in an `Engine`
structure, and every call into them is recorded as an explicit `Effect` so
that theorems can speak about which engine operations a given input reaches.
-/

namespace CliWallet

/-- A parsed bech32 address, as returned by the engine address parsing. -/
structure Bech32Addr where
  raw : String
deriving DecidableEq

/-- A wallet address record (`iota_wallet::address::Address`). -/
structure WalletAddress where
  bech32 : String
  balance : Nat
  keyIndex : Nat
  internal : Bool
deriving DecidableEq

/-- A message record (`iota_wallet::message::Message`): id, optional
transaction value, timestamp, broadcast flag, confirmation flag. -/
structure Message where
  id : String
  value : Option Nat
  timestamp : Nat
  broadcasted : Bool
  confirmed : Option Bool
deriving DecidableEq

/-- Result of a sync run: newly surfaced addresses and messages. -/
structure SyncedData where
  addresses : List WalletAddress
  messages : List Message
deriving DecidableEq

/-- An account record: alias, id and its addresses. -/
structure Account where
  aliasName : String
  accountId : String
  addresses : List WalletAddress
deriving DecidableEq

/-- Message filter used by `list-messages` (`iota_wallet::message::MessageType`). -/
inductive MessageType where
  | received
  | sent
  | failed
  | unconfirmed
  | value
deriving DecidableEq

/-- `ReplayAction` from `account.rs`. -/
inductive ReplayAction where
  | Promote
  | Retry
  | Reattach
deriving DecidableEq

/-- Observable effects of the program: printed lines, screen clears, engine
calls, notification attempts, and entering an account prompt. -/
inductive Effect where
  | print (line : String)
  | clearScreen
  | engGetMessage (id : String)
  | engListMessages (t : Option MessageType)
  | engSync (gap : Option Nat)
  | engGenerateAddress
  | engBalance
  | engTransfer (addr : Bech32Addr) (amount : Nat)
  | engPromote (id : String)
  | engRetry (id : String)
  | engReattach (id : String)
  | engSetClientOptions (node : String)
  | engSetAlias (a : String)
  | engStoreMnemonic (explicit : Option String)
  | engUnlock (password : String)
  | engRemoveAccount (id : String)
  | engCreateAccount
  | engSyncAll
  | engBackup (path : String)
  | engImport (path : String)
  | notifyAttempt (body : String)
  | promptEntered (aliasName : String)
deriving DecidableEq

/-- Outcome of a command handler: success, a recoverable error (printed by the
REPL via `print_error`), or a Rust panic (aborts the session). -/
inductive Outcome where
  | ok
  | err (msg : String)
  | panicked (msg : String)
deriving DecidableEq

/-- A handler run: the effects it produced and its outcome. -/
def Step := List Effect × Outcome

/-- Sequencing of handler runs, mirroring Rust `?` propagation: the second
handler runs only when the first returned `Ok`. -/
def Step.seq (s t : Step) : Step :=
  match s with
  | (tr, Outcome.ok) => (tr ++ t.1, t.2)
  | other => other

/-- The external wallet engine, the bech32 address codec and the notification
sink, given as oracles.  Each field mirrors one engine entry point used by the
repository. -/
structure Engine where
  parse_address : String → Option Bech32Addr
  transfer : Bech32Addr → Nat → Except String Message
  get_message : String → Option Message
  list_messages : Option MessageType → Except String (List Message)
  promote : String → Except String Message
  retry : String → Except String Message
  reattach : String → Except String Message
  sync_execute : Option Nat → Except String SyncedData
  generate_address : Except String WalletAddress
  balance : Except String String
  set_client_options : String → Except String Unit
  set_alias : String → Except String Unit
  address_available_balance : WalletAddress → Except String Nat
  account : Account
  get_account : String → Option Account
  remove_account : String → Except String Unit
  create_account : Option String → Except String Account
  sync_accounts : Except String Nat
  backup : String → Except String String
  import_accounts : String → Except String Unit

/-- Rust `command.split(' ')` on the list of characters: split on every
occurrence of the separator, keeping empty fragments. -/
def splitChar (sep : Char) : List Char → List (List Char)
  | [] => [[]]
  | c :: rest =>
    let r := splitChar sep rest
    if c = sep then [] :: r
    else
      match r with
      | h :: t => (c :: h) :: t
      | [] => [[c]]

/-- Rust `command.split(' ').collect::<Vec<&str>>()`. -/
def splitLine (s : String) : List String :=
  (splitChar ' ' s.toList).map fun cs => String.mk cs

/-- Hexadecimal digit test. -/
def isHexChar (c : Char) : Bool :=
  c.isDigit || (Char.ofNat 97 ≤ c && c ≤ Char.ofNat 102) ||
    (Char.ofNat 65 ≤ c && c ≤ Char.ofNat 70)

/-- Numeric value of a list of decimal digit characters. -/
def digitsVal (cs : List Char) : Nat :=
  cs.foldl (fun n c => n * 10 + (c.toNat - 48)) 0

/-- Rust `str::parse::<u64>()`: an optional leading plus sign followed by at
least one decimal digit, rejecting values outside the 64-bit range. -/
def parseRustU64 (s : String) : Option Nat :=
  let cs :=
    match s.toList with
    | '+' :: rest => rest
    | other => other
  if cs.isEmpty then none
  else if cs.all Char.isDigit then
    let n := digitsVal cs
    if n < 2 ^ 64 then some n else none
  else none

/-- Modelled from the spec: `MessageId::from_str` belongs to the external
wallet engine and is not part of this repository; per the spec a message-id
argument parses exactly when it is a hex string of exactly 64 hex
characters. -/
def messageIdFromStr (s : String) : Option String :=
  if s.length = 64 ∧ s.toList.all isHexChar then some s else none

/-- The account sub-grammar commands (`ParsedCommand` of the spec), carrying
the raw argument strings exactly as the grammar hands them to the handlers. -/
inductive AccountCmd where
  | listMessages (id : Option String) (mtype : Option String)
  | listAddresses
  | syncCmd (gap : Option String)
  | address
  | balance
  | transfer (address : String) (amount : String)
  | promote (id : String)
  | retry (id : String)
  | reattach (id : String)
  | setNode (node : String)
  | setAlias (a : String)
  | exitCmd
deriving DecidableEq

/-- The enumerated values accepted by `list-messages --type`. -/
def validTypeStrings : List String :=
  ["received", "sent", "failed", "unconfirmed", "value"]

/-- Modelled from the spec: the account grammar file `account-cli.yml` is not
part of the repository sources (the spec lists it as an external
command-grammar data file), so the grammar is taken from the spec, section 6:
space-tokenized input matching `list-messages [--id h] [--type t]` with
`t` in the enumerated set, `list-addresses`, `sync [--gap g]`, `address`,
`balance`, `transfer --address a --amount n`, `promote --id h`,
`retry --id h`, `reattach --id h`, `set-node --node u`,
`set-alias --alias s`, `exit`; anything else is a grammar error rendered with
a parse message. -/
def rawParseAccountCommand : List String → Except String AccountCmd
  | ["list-messages"] => Except.ok (AccountCmd.listMessages none none)
  | ["list-messages", "--id", v] => Except.ok (AccountCmd.listMessages (some v) none)
  | ["list-messages", "--type", t] => Except.ok (AccountCmd.listMessages none (some t))
  | ["list-messages", "--id", v, "--type", t] => Except.ok (AccountCmd.listMessages (some v) (some t))
  | ["list-messages", "--type", t, "--id", v] => Except.ok (AccountCmd.listMessages (some v) (some t))
  | ["list-addresses"] => Except.ok AccountCmd.listAddresses
  | ["sync"] => Except.ok (AccountCmd.syncCmd none)
  | ["sync", "--gap", g] => Except.ok (AccountCmd.syncCmd (some g))
  | ["address"] => Except.ok AccountCmd.address
  | ["balance"] => Except.ok AccountCmd.balance
  | ["transfer", "--address", a, "--amount", m] => Except.ok (AccountCmd.transfer a m)
  | ["transfer", "--amount", m, "--address", a] => Except.ok (AccountCmd.transfer a m)
  | ["promote", "--id", v] => Except.ok (AccountCmd.promote v)
  | ["retry", "--id", v] => Except.ok (AccountCmd.retry v)
  | ["reattach", "--id", v] => Except.ok (AccountCmd.reattach v)
  | ["set-node", "--node", u] => Except.ok (AccountCmd.setNode u)
  | ["set-alias", "--alias", s] => Except.ok (AccountCmd.setAlias s)
  | ["exit"] => Except.ok AccountCmd.exitCmd
  | _ => Except.error "error: unrecognized command or arguments"

/-- Enumerated-value check performed by the grammar: `--type` only accepts the
five enumerated message types. -/
def typeOK : AccountCmd → Bool
  | AccountCmd.listMessages _ (some t) => validTypeStrings.contains t
  | _ => true

/-- Validation layer of the grammar for enumerated values. -/
def validateCmd (cmd : AccountCmd) : Except String AccountCmd :=
  if typeOK cmd then Except.ok cmd else Except.error "error: invalid value for --type"

/-- The full account grammar: shape match followed by enumerated-value
validation. -/
def parseAccountCommand (toks : List String) : Except String AccountCmd :=
  match rawParseAccountCommand toks with
  | Except.ok cmd => validateCmd cmd
  | Except.error e => Except.error e

/-- `print_message` from `account.rs`: the message block. -/
def print_message (m : Message) : List Effect :=
  [Effect.print ("MESSAGE " ++ m.id)]
    ++ (match m.value with
        | some v => [Effect.print ("--- Value: " ++ toString v)]
        | none => [])
    ++ [Effect.print ("--- Timestamp: " ++ toString m.timestamp),
        Effect.print ("--- Broadcasted: " ++ toString m.broadcasted ++ ", confirmed: " ++
          (match m.confirmed with
           | some c => toString c
           | none => "unknown"))]

/-- `print_address` from `account.rs`: the address block.  The available
balance comes from a fallible engine call whose result is unwrapped
(`.unwrap()`), so an engine failure there panics after the first two lines
have been printed. -/
def print_address (eng : Engine) (a : WalletAddress) : Step :=
  match eng.address_available_balance a with
  | Except.ok bal =>
    ([Effect.print ("ADDRESS " ++ a.bech32),
      Effect.print ("Total balance: " ++ toString a.balance),
      Effect.print ("--- Balance: " ++ toString bal),
      Effect.print ("--- Index: " ++ toString a.keyIndex),
      Effect.print ("--- Change address: " ++ toString a.internal)], Outcome.ok)
  | Except.error e =>
    ([Effect.print ("ADDRESS " ++ a.bech32),
      Effect.print ("Total balance: " ++ toString a.balance)], Outcome.panicked e)

/-- A `for` loop over `print_address`: a panic aborts the remaining
iterations. -/
def printAddressList (eng : Engine) : List WalletAddress → Step
  | [] => ([], Outcome.ok)
  | a :: rest => (print_address eng a).seq (printAddressList eng rest)

/-- Tail of `list_messages_command` without an `id` argument: call the engine
with the resolved filter and print the results or `No messages found`. -/
def listMessagesRest (eng : Engine) (mt : Option MessageType) : Step :=
  match eng.list_messages mt with
  | Except.ok msgs =>
    if msgs.isEmpty then ([Effect.engListMessages mt, Effect.print "No messages found"], Outcome.ok)
    else (Effect.engListMessages mt :: (msgs.map print_message).flatten, Outcome.ok)
  | Except.error e => ([Effect.engListMessages mt], Outcome.err e)

/-- `list_messages_command` from `account.rs`. -/
def list_messages_command (eng : Engine) (cmd : AccountCmd) : Step :=
  match cmd with
  | AccountCmd.listMessages idArg typeArg =>
    match idArg with
    | some id =>
      match messageIdFromStr id with
      | some mid =>
        match eng.get_message mid with
        | some m => (Effect.engGetMessage mid :: print_message m, Outcome.ok)
        | none => ([Effect.engGetMessage mid, Effect.print "Message not found"], Outcome.ok)
      | none => ([Effect.print "Message id must be a hex string of length 64"], Outcome.ok)
    | none =>
      match typeArg with
      | some t =>
        match t with
        | "received" => listMessagesRest eng (some MessageType.received)
        | "sent" => listMessagesRest eng (some MessageType.sent)
        | "failed" => listMessagesRest eng (some MessageType.failed)
        | "unconfirmed" => listMessagesRest eng (some MessageType.unconfirmed)
        | "value" => listMessagesRest eng (some MessageType.value)
        | _ => ([], Outcome.panicked "unexpected message type")
      | none => listMessagesRest eng none
  | _ => ([], Outcome.ok)

/-- `list_addresses_command` from `account.rs`. -/
def list_addresses_command (eng : Engine) (cmd : AccountCmd) : Step :=
  match cmd with
  | AccountCmd.listAddresses =>
    let addrs := eng.account.addresses
    if addrs.isEmpty then ([Effect.print "No addresses found"], Outcome.ok)
    else printAddressList eng addrs
  | _ => ([], Outcome.ok)

/-- `sync_account_command` from `account.rs`. -/
def sync_account_command (eng : Engine) (cmd : AccountCmd) : Step :=
  match cmd with
  | AccountCmd.syncCmd gapArg =>
    match gapArg with
    | some g =>
      match parseRustU64 g with
      | some limit =>
        match eng.sync_execute (some limit) with
        | Except.ok d =>
          Step.seq
            ([Effect.print ("Syncing with gap limit " ++ toString limit),
              Effect.engSync (some limit)], Outcome.ok)
            ((printAddressList eng d.addresses).seq
              ((d.messages.map print_message).flatten, Outcome.ok))
        | Except.error e =>
          ([Effect.print ("Syncing with gap limit " ++ toString limit), Effect.engSync (some limit)],
           Outcome.err e)
      | none => ([], Outcome.err "Gap limit must be a number")
    | none =>
      match eng.sync_execute none with
      | Except.ok d =>
        Step.seq ([Effect.engSync none], Outcome.ok)
          ((printAddressList eng d.addresses).seq
            ((d.messages.map print_message).flatten, Outcome.ok))
      | Except.error e => ([Effect.engSync none], Outcome.err e)
  | _ => ([], Outcome.ok)

/-- `generate_address_command` from `account.rs`. -/
def generate_address_command (eng : Engine) (cmd : AccountCmd) : Step :=
  match cmd with
  | AccountCmd.address =>
    match eng.generate_address with
    | Except.ok a => Step.seq ([Effect.engGenerateAddress], Outcome.ok) (print_address eng a)
    | Except.error e => ([Effect.engGenerateAddress], Outcome.err e)
  | _ => ([], Outcome.ok)

/-- `balance_command` from `account.rs`. -/
def balance_command (eng : Engine) (cmd : AccountCmd) : Step :=
  match cmd with
  | AccountCmd.balance =>
    match eng.balance with
    | Except.ok s => ([Effect.engBalance, Effect.print s], Outcome.ok)
    | Except.error e => ([Effect.engBalance], Outcome.err e)
  | _ => ([], Outcome.ok)

/-- `transfer_command` from `account.rs`: bech32 parse, then `u64` parse, then
the `NonZeroU64` zero check, and only then the engine transfer call. -/
def transfer_command (eng : Engine) (cmd : AccountCmd) : Step :=
  match cmd with
  | AccountCmd.transfer addressArg amountArg =>
    match eng.parse_address addressArg with
    | some addr =>
      match parseRustU64 amountArg with
      | some amount =>
        if amount = 0 then ([], Outcome.err "amount can\x27t be zero")
        else
          match eng.transfer addr amount with
          | Except.ok m => (Effect.engTransfer addr amount :: print_message m, Outcome.ok)
          | Except.error e => ([Effect.engTransfer addr amount], Outcome.err e)
      | none => ([], Outcome.err "Amount must be a number")
    | none => ([], Outcome.err "Address must be a bech32 string")
  | _ => ([], Outcome.ok)

/-- `replay_message` from `account.rs`. -/
def replay_message (eng : Engine) (action : ReplayAction) (messageId : String) : Step :=
  match messageIdFromStr messageId with
  | some mid =>
    match action with
    | ReplayAction.Promote =>
      match eng.promote mid with
      | Except.ok m => (Effect.engPromote mid :: print_message m, Outcome.ok)
      | Except.error e => ([Effect.engPromote mid], Outcome.err e)
    | ReplayAction.Retry =>
      match eng.retry mid with
      | Except.ok m => (Effect.engRetry mid :: print_message m, Outcome.ok)
      | Except.error e => ([Effect.engRetry mid], Outcome.err e)
    | ReplayAction.Reattach =>
      match eng.reattach mid with
      | Except.ok m => (Effect.engReattach mid :: print_message m, Outcome.ok)
      | Except.error e => ([Effect.engReattach mid], Outcome.err e)
  | none => ([Effect.print "Message id must be a hex string of length 64"], Outcome.ok)

/-- `promote_message_command` from `account.rs`. -/
def promote_message_command (eng : Engine) (cmd : AccountCmd) : Step :=
  match cmd with
  | AccountCmd.promote id => replay_message eng ReplayAction.Promote id
  | _ => ([], Outcome.ok)

/-- `retry_message_command` from `account.rs`. -/
def retry_message_command (eng : Engine) (cmd : AccountCmd) : Step :=
  match cmd with
  | AccountCmd.retry id => replay_message eng ReplayAction.Retry id
  | _ => ([], Outcome.ok)

/-- `reattach_message_command` from `account.rs`. -/
def reattach_message_command (eng : Engine) (cmd : AccountCmd) : Step :=
  match cmd with
  | AccountCmd.reattach id => replay_message eng ReplayAction.Reattach id
  | _ => ([], Outcome.ok)

/-- `set_node_command` from `account.rs`. -/
def set_node_command (eng : Engine) (cmd : AccountCmd) : Step :=
  match cmd with
  | AccountCmd.setNode node =>
    match eng.set_client_options node with
    | Except.ok _ => ([Effect.engSetClientOptions node], Outcome.ok)
    | Except.error e => ([Effect.engSetClientOptions node], Outcome.err e)
  | _ => ([], Outcome.ok)

/-- `set_alias_command` from `account.rs`. -/
def set_alias_command (eng : Engine) (cmd : AccountCmd) : Step :=
  match cmd with
  | AccountCmd.setAlias a =>
    match eng.set_alias a with
    | Except.ok _ => ([Effect.engSetAlias a], Outcome.ok)
    | Except.error e => ([Effect.engSetAlias a], Outcome.err e)
  | _ => ([], Outcome.ok)

/-- `account_commands` from `account.rs`: the eleven handlers run in source
order, each one a no-op unless the parsed command is its own subcommand; an
error from any handler short-circuits the rest. -/
def account_commands (eng : Engine) (cmd : AccountCmd) : Step :=
  (((((((((( list_messages_command eng cmd).seq
    (list_addresses_command eng cmd)).seq
    (sync_account_command eng cmd)).seq
    (generate_address_command eng cmd)).seq
    (balance_command eng cmd)).seq
    (transfer_command eng cmd)).seq
    (promote_message_command eng cmd)).seq
    (retry_message_command eng cmd)).seq
    (reattach_message_command eng cmd)).seq
    (set_node_command eng cmd)).seq
    (set_alias_command eng cmd)

/-- Result of one account prompt iteration: the `exit` command was parsed, the
loop continues, or a handler panicked (process abort). -/
inductive PromptStep where
  | exited
  | continued
  | aborted (msg : String)
deriving DecidableEq

/-- Help text printed by `cli.print_help()` for the raw input `h`; the text
itself is generated by the external grammar library. -/
def accountHelpText : String := "account command help"

/-- `account_prompt_internal` from `account.rs`, for one already-read input
line: handle the raw words `h` and `clear`, otherwise tokenize on single
spaces, run the grammar, dispatch the parsed command, and report errors
without leaving the loop. -/
def account_prompt_internal (eng : Engine) (line : String) : List Effect × PromptStep :=
  if line = "h" then ([Effect.print accountHelpText], PromptStep.continued)
  else if line = "clear" then ([Effect.clearScreen], PromptStep.continued)
  else
    match parseAccountCommand (splitLine line) with
    | Except.ok cmd =>
      if cmd = AccountCmd.exitCmd then ([], PromptStep.exited)
      else
        match account_commands eng cmd with
        | (tr, Outcome.ok) => (tr, PromptStep.continued)
        | (tr, Outcome.err e) => (tr ++ [Effect.print ("ERROR: " ++ e)], PromptStep.continued)
        | (tr, Outcome.panicked m) => (tr, PromptStep.aborted m)
    | Except.error e => ([Effect.print e], PromptStep.continued)

/-- `account_prompt` from `account.rs`, driven by a finite list of input
lines: `none` means the input was exhausted while the loop was still
running. -/
def account_prompt (eng : Engine) : List String → List Effect × Option PromptStep
  | [] => ([], none)
  | line :: rest =>
    match account_prompt_internal eng line with
    | (tr, PromptStep.continued) =>
      let r := account_prompt eng rest
      (tr ++ r.1, r.2)
    | (tr, PromptStep.exited) => (tr, some PromptStep.exited)
    | (tr, PromptStep.aborted m) => (tr, some (PromptStep.aborted m))

/-- `std::env::args().any(|arg| arg == *"import")` from `run`. -/
def is_importing (args : List String) : Bool :=
  args.any fun a => a = "import"

/-- The unlock loop of `run`, driven by a finite list of password attempts and
the engine acceptance oracle; the boolean tells whether the loop broke (a
password was accepted) before the attempts ran out. -/
def unlock_loop (accepts : String → Bool) : List String → List Effect × Bool
  | [] => ([], false)
  | p :: rest =>
    if accepts p then ([Effect.engUnlock p], true)
    else
      let r := unlock_loop accepts rest
      (Effect.engUnlock p :: Effect.print "Wrong password. Try again." :: r.1, r.2)

/-- The unlock phase of `run`: skipped entirely when the raw arguments contain
`import`, otherwise the unlock loop. -/
def bootstrap_unlock (args : List String) (accepts : String → Bool)
    (attempts : List String) : List Effect × Bool :=
  if is_importing args then ([], true) else unlock_loop accepts attempts

/-- `store_mnemonic_command` from `main.rs`: stores an explicitly supplied
mnemonic and reports whether the `mnemonic` subcommand was present. -/
def store_mnemonic_command (explicitMnemonic : Option String) : List Effect × Bool :=
  match explicitMnemonic with
  | some m => ([Effect.engStoreMnemonic (some m)], true)
  | none => ([], false)

/-- The first-run branch of `run`: after the explicit `mnemonic` command, a
fresh random mnemonic is stored iff the invocation is not an import, no
`wallet.stronghold` keystore file exists under the storage path, and no
explicit mnemonic was set. -/
def run_mnemonic_phase (isImp keystoreExists : Bool) (explicitMnemonic : Option String) :
    List Effect :=
  let r := store_mnemonic_command explicitMnemonic
  if !(isImp || keystoreExists || r.2) then r.1 ++ [Effect.engStoreMnemonic none] else r.1

/-- Alias of the account at a picker index; `pick_account` never returns an
out-of-range index, and `accounts[index]` would panic on one. -/
def aliasAt (accounts : List Account) (i : Nat) : String :=
  ((accounts.get? i).map Account.aliasName).getD "index out of range"

/-- The `while let Some(index) = pick_account(...)` loop of `run`, driven by a
finite list of picker answers (`none` is a cancel); the boolean tells whether
the user cancelled before the answers ran out. -/
def pick_loop (accounts : List Account) : List (Option Nat) → List Effect × Bool
  | [] => ([], false)
  | none :: _ => ([], true)
  | some i :: rest =>
    let r := pick_loop accounts rest
    (Effect.promptEntered (aliasAt accounts i) :: r.1, r.2)

/-- How the interactive-selection block of `run` ended. -/
inductive SelectionOutcome where
  | returned
  | fellThrough
  | waitingInput
deriving DecidableEq

/-- The interactive-selection block of `run` (entered only when the process
argument count is 1): zero accounts fall through to the command dispatch
section, one account enters its prompt and returns, several accounts loop on
the picker until cancel.  Entering an account prompt is recorded as a
`promptEntered` effect; the prompt itself is modelled by `account_prompt`. -/
def interactive_selection (accounts : List Account) (argc : Nat)
    (picks : List (Option Nat)) : List Effect × SelectionOutcome :=
  if argc = 1 then
    match accounts with
    | [] => ([], SelectionOutcome.fellThrough)
    | [a] => ([Effect.promptEntered a.aliasName], SelectionOutcome.returned)
    | _ =>
      let r := pick_loop accounts picks
      (r.1, if r.2 then SelectionOutcome.fellThrough else SelectionOutcome.waitingInput)
  else ([], SelectionOutcome.fellThrough)

/-- The top-level command parsed from the process arguments; the grammar file
`cli.yml` is external, and the external parser yields at most one
subcommand. -/
inductive TopCmd where
  | mnemonicCmd (m : String)
  | newCmd (aliasArg : Option String)
  | accountCmd (aliasArg : String)
  | deleteCmd (aliasArg : String)
  | syncAllCmd
  | backupCmd (path : String)
  | importCmd (path : String)
  | noCmd
deriving DecidableEq

/-- `select_account_command` from `main.rs`: an unknown alias prints
`Account not found` and yields no account, never an error. -/
def select_account_command (eng : Engine) (cmd : TopCmd) : List Effect × Option Account :=
  match cmd with
  | TopCmd.accountCmd a =>
    match eng.get_account a with
    | some acc => ([], some acc)
    | none => ([Effect.print "Account not found"], none)
  | _ => ([], none)

/-- The `new_account_command` phase of `run`, including entering the new
account's prompt on success. -/
def new_account_phase (eng : Engine) (cmd : TopCmd) : Step :=
  match cmd with
  | TopCmd.newCmd al =>
    match eng.create_account al with
    | Except.ok acc =>
      ([Effect.engCreateAccount, Effect.print ("Created account `" ++ acc.aliasName ++ "`"),
        Effect.promptEntered acc.aliasName], Outcome.ok)
    | Except.error e => ([Effect.engCreateAccount], Outcome.err e)
  | _ => ([], Outcome.ok)

/-- `delete_account_command` from `main.rs`: an unknown alias prints
`Account not found` and succeeds. -/
def delete_account_command (eng : Engine) (cmd : TopCmd) : Step :=
  match cmd with
  | TopCmd.deleteCmd a =>
    match eng.get_account a with
    | some acc =>
      match eng.remove_account acc.accountId with
      | Except.ok _ =>
        ([Effect.engRemoveAccount acc.accountId, Effect.print "Account removed"], Outcome.ok)
      | Except.error e => ([Effect.engRemoveAccount acc.accountId], Outcome.err e)
    | none => ([Effect.print "Account not found"], Outcome.ok)
  | _ => ([], Outcome.ok)

/-- `sync_accounts_command` from `main.rs`. -/
def sync_accounts_command (eng : Engine) (cmd : TopCmd) : Step :=
  match cmd with
  | TopCmd.syncAllCmd =>
    match eng.sync_accounts with
    | Except.ok n =>
      ([Effect.engSyncAll, Effect.print ("Synchronized " ++ toString n ++ " accounts")], Outcome.ok)
    | Except.error e => ([Effect.engSyncAll], Outcome.err e)
  | _ => ([], Outcome.ok)

/-- `backup_command` from `main.rs`. -/
def backup_command (eng : Engine) (cmd : TopCmd) : Step :=
  match cmd with
  | TopCmd.backupCmd path =>
    match eng.backup path with
    | Except.ok full => ([Effect.engBackup path, Effect.print ("Backup stored at " ++ full)], Outcome.ok)
    | Except.error e => ([Effect.engBackup path], Outcome.err e)
  | _ => ([], Outcome.ok)

/-- `import_command` from `main.rs`. -/
def import_command (eng : Engine) (cmd : TopCmd) : Step :=
  match cmd with
  | TopCmd.importCmd path =>
    match eng.import_accounts path with
    | Except.ok _ => ([Effect.engImport path, Effect.print "Backup successfully imported"], Outcome.ok)
    | Except.error e => ([Effect.engImport path], Outcome.err e)
  | _ => ([], Outcome.ok)

/-- The command dispatch section at the end of `run` (`main.rs` lines
313-330): select, new, delete, sync, backup, import, in source order, with
`?` propagation; entering an account prompt is recorded as a `promptEntered`
effect. -/
def run_dispatch (eng : Engine) (cmd : TopCmd) : Step :=
  let sel := select_account_command eng cmd
  let selStep : Step :=
    (sel.1 ++ (match sel.2 with
               | some acc => [Effect.promptEntered acc.aliasName]
               | none => []), Outcome.ok)
  ((((selStep.seq (new_account_phase eng cmd)).seq
    (delete_account_command eng cmd)).seq
    (sync_accounts_command eng cmd)).seq
    (backup_command eng cmd)).seq
    (import_command eng cmd)

/-- A balance-change event as delivered by the engine. -/
structure BalanceChangeEvent where
  accountId : String
  addressBech32 : String
  spent : Nat
  received : Nat
deriving DecidableEq

/-- A message event (new transaction, confirmation change, reattachment). -/
structure MessageEvent where
  accountId : String
  messageIdStr : String
deriving DecidableEq

/-- The worker body of the `on_balance_change` subscription in `run`: resolve
the account in the registry (a missing account is a programming error, Rust
`expect`), format the record, attempt exactly one desktop notification, and
on failure print one `[BALANCE]` line; the failure is swallowed. -/
def balance_change_worker (registry : String → Option Account) (notifySucceeds : Bool)
    (ev : BalanceChangeEvent) : Step :=
  match registry ev.accountId with
  | none => ([], Outcome.panicked "account not found")
  | some acc =>
    let balanceMessage :=
      if ev.spent > 0 then toString ev.spent ++ " spent on address " ++ ev.addressBech32
      else toString ev.received ++ " received on address " ++ ev.addressBech32
    let body := balanceMessage ++ " on `" ++ acc.aliasName ++ "`"
    if notifySucceeds then ([Effect.notifyAttempt body], Outcome.ok)
    else ([Effect.notifyAttempt body, Effect.print ("[BALANCE] " ++ body)], Outcome.ok)

/-- The worker body generated by the `message_listener!` macro in `main.rs`
for the three message-event subscriptions, with `tag` the message prefix of
the subscription kind. -/
def message_listener_worker (registry : String → Option Account) (notifySucceeds : Bool)
    (tag : String) (ev : MessageEvent) : Step :=
  match registry ev.accountId with
  | none => ([], Outcome.panicked "account not found")
  | some acc =>
    let body := tag ++ ": " ++ ev.messageIdStr ++ " on `" ++ acc.aliasName ++ "`"
    if notifySucceeds then ([Effect.notifyAttempt body], Outcome.ok)
    else ([Effect.notifyAttempt body, Effect.print body], Outcome.ok)

/-- `main` from `main.rs`: `run` is awaited; an error is printed via
`print_error` but `main` still returns unit, so the process exit code is 0 in
both cases.  The pair is (exit code, printed effects). -/
def rust_main (runResult : Except String Unit) : Nat × List Effect :=
  match runResult with
  | Except.ok _ => (0, [])
  | Except.error e => (0, [Effect.print ("ERROR: " ++ e)])

/-- Modelled from the spec: the top-level grammar is parsed by the external
clap library, which is not part of the repository sources; per the spec a
rejected input makes the parser print its generated help and exit the process
with a non-zero usage code. -/
def parser_reject_exit_code : Nat := 2




lemma Step.seq_panicked {s t : Step} {m : String}
    (h : (s.seq t).2 = Outcome.panicked m) :
    s.2 = Outcome.panicked m ∨ t.2 = Outcome.panicked m := by
  rcases s with ⟨tr, o⟩
  cases o with
  | ok => exact Or.inr (by simpa [Step.seq] using h)
  | err e => simp [Step.seq] at h
  | panicked pm => exact Or.inl (by simpa [Step.seq] using h)

lemma print_address_no_panic (eng : Engine) (a : WalletAddress) (m : String)
    (htotal : ∀ x, ∃ n, eng.address_available_balance x = Except.ok n) :
    (print_address eng a).2 ≠ Outcome.panicked m := by
  obtain ⟨n, hn⟩ := htotal a
  simp [print_address, hn]

lemma printAddressList_no_panic (eng : Engine) (l : List WalletAddress) (m : String)
    (htotal : ∀ x, ∃ n, eng.address_available_balance x = Except.ok n) :
    (printAddressList eng l).2 ≠ Outcome.panicked m := by
  induction l with
  | nil => simp [printAddressList]
  | cons a rest ih =>
    simp only [printAddressList]
    intro hcontra
    rcases Step.seq_panicked hcontra with h | h
    · exact print_address_no_panic eng a m htotal h
    · exact ih h

lemma listMessagesRest_no_panic (eng : Engine) (mt : Option MessageType) (m : String) :
    (listMessagesRest eng mt).2 ≠ Outcome.panicked m := by
  rcases h : eng.list_messages mt with e | msgs
  · simp [listMessagesRest, h]
  · simp only [listMessagesRest, h]
    split <;> simp

lemma parse_ok_typeOK (toks : List String) (cmd : AccountCmd)
    (h : parseAccountCommand toks = Except.ok cmd) : typeOK cmd = true := by
  unfold parseAccountCommand at h
  rcases hr : rawParseAccountCommand toks with e | c <;> rw [hr] at h
  · cases h
  · have h2 : validateCmd c = Except.ok cmd := h
    unfold validateCmd at h2
    by_cases ht : typeOK c = true
    · rw [if_pos ht] at h2
      cases h2
      exact ht
    · rw [if_neg ht] at h2
      cases h2

lemma account_commands_listMessages (eng : Engine) (i t : Option String) :
    account_commands eng (AccountCmd.listMessages i t) =
      list_messages_command eng (AccountCmd.listMessages i t) := by
  rcases h : list_messages_command eng (AccountCmd.listMessages i t) with ⟨tr, o⟩
  cases o <;>
    simp [account_commands, Step.seq, list_addresses_command,
      sync_account_command, generate_address_command, balance_command, transfer_command, h,
      promote_message_command, retry_message_command, reattach_message_command,
      set_node_command, set_alias_command]

lemma account_commands_listAddresses (eng : Engine) :
    account_commands eng AccountCmd.listAddresses =
      list_addresses_command eng AccountCmd.listAddresses := by
  rcases h : list_addresses_command eng AccountCmd.listAddresses with ⟨tr, o⟩
  cases o <;>
    simp [account_commands, Step.seq, list_messages_command,
      sync_account_command, generate_address_command, balance_command, transfer_command, h,
      promote_message_command, retry_message_command, reattach_message_command,
      set_node_command, set_alias_command]

lemma account_commands_sync (eng : Engine) (g : Option String) :
    account_commands eng (AccountCmd.syncCmd g) =
      sync_account_command eng (AccountCmd.syncCmd g) := by
  rcases h : sync_account_command eng (AccountCmd.syncCmd g) with ⟨tr, o⟩
  cases o <;>
    simp [account_commands, Step.seq, list_messages_command, list_addresses_command,
      generate_address_command, balance_command, transfer_command, h,
      promote_message_command, retry_message_command, reattach_message_command,
      set_node_command, set_alias_command]

lemma account_commands_address (eng : Engine) :
    account_commands eng AccountCmd.address =
      generate_address_command eng AccountCmd.address := by
  rcases h : generate_address_command eng AccountCmd.address with ⟨tr, o⟩
  cases o <;>
    simp [account_commands, Step.seq, list_messages_command, list_addresses_command,
      sync_account_command, balance_command, transfer_command, h,
      promote_message_command, retry_message_command, reattach_message_command,
      set_node_command, set_alias_command]

lemma account_commands_balance (eng : Engine) :
    account_commands eng AccountCmd.balance =
      balance_command eng AccountCmd.balance := by
  rcases h : balance_command eng AccountCmd.balance with ⟨tr, o⟩
  cases o <;>
    simp [account_commands, Step.seq, list_messages_command, list_addresses_command,
      sync_account_command, generate_address_command, transfer_command, h,
      promote_message_command, retry_message_command, reattach_message_command,
      set_node_command, set_alias_command]

lemma account_commands_transfer (eng : Engine) (a m : String) :
    account_commands eng (AccountCmd.transfer a m) =
      transfer_command eng (AccountCmd.transfer a m) := by
  rcases h : transfer_command eng (AccountCmd.transfer a m) with ⟨tr, o⟩
  cases o <;>
    simp [account_commands, Step.seq, list_messages_command, list_addresses_command,
      sync_account_command, generate_address_command, balance_command, h,
      promote_message_command, retry_message_command, reattach_message_command,
      set_node_command, set_alias_command]

lemma account_commands_promote (eng : Engine) (v : String) :
    account_commands eng (AccountCmd.promote v) =
      promote_message_command eng (AccountCmd.promote v) := by
  rcases h : promote_message_command eng (AccountCmd.promote v) with ⟨tr, o⟩
  cases o <;>
    simp [account_commands, Step.seq, list_messages_command, list_addresses_command,
      sync_account_command, generate_address_command, balance_command, transfer_command, h,
      retry_message_command, reattach_message_command,
      set_node_command, set_alias_command]

lemma account_commands_retry (eng : Engine) (v : String) :
    account_commands eng (AccountCmd.retry v) =
      retry_message_command eng (AccountCmd.retry v) := by
  rcases h : retry_message_command eng (AccountCmd.retry v) with ⟨tr, o⟩
  cases o <;>
    simp [account_commands, Step.seq, list_messages_command, list_addresses_command,
      sync_account_command, generate_address_command, balance_command, transfer_command, h,
      promote_message_command, reattach_message_command,
      set_node_command, set_alias_command]

lemma account_commands_reattach (eng : Engine) (v : String) :
    account_commands eng (AccountCmd.reattach v) =
      reattach_message_command eng (AccountCmd.reattach v) := by
  rcases h : reattach_message_command eng (AccountCmd.reattach v) with ⟨tr, o⟩
  cases o <;>
    simp [account_commands, Step.seq, list_messages_command, list_addresses_command,
      sync_account_command, generate_address_command, balance_command, transfer_command, h,
      promote_message_command, retry_message_command,
      set_node_command, set_alias_command]

lemma account_commands_setNode (eng : Engine) (u : String) :
    account_commands eng (AccountCmd.setNode u) =
      set_node_command eng (AccountCmd.setNode u) := by
  rcases h : set_node_command eng (AccountCmd.setNode u) with ⟨tr, o⟩
  cases o <;>
    simp [account_commands, Step.seq, list_messages_command, list_addresses_command,
      sync_account_command, generate_address_command, balance_command, transfer_command, h,
      promote_message_command, retry_message_command, reattach_message_command,
      set_alias_command]

lemma account_commands_setAlias (eng : Engine) (s : String) :
    account_commands eng (AccountCmd.setAlias s) =
      set_alias_command eng (AccountCmd.setAlias s) := by
  rcases h : set_alias_command eng (AccountCmd.setAlias s) with ⟨tr, o⟩
  cases o <;>
    simp [account_commands, Step.seq, list_messages_command, list_addresses_command,
      sync_account_command, generate_address_command, balance_command, transfer_command, h,
      promote_message_command, retry_message_command, reattach_message_command,
      set_node_command]

lemma account_commands_exitCmd (eng : Engine) :
    account_commands eng AccountCmd.exitCmd = ([], Outcome.ok) := by
  simp [account_commands, Step.seq, list_messages_command, list_addresses_command,
    sync_account_command, generate_address_command, balance_command, transfer_command,
    promote_message_command, retry_message_command, reattach_message_command,
    set_node_command, set_alias_command]

lemma replay_message_no_panic (eng : Engine) (action : ReplayAction) (v m : String) :
    (replay_message eng action v).2 ≠ Outcome.panicked m := by
  unfold replay_message
  rcases messageIdFromStr v with _ | mid
  · simp
  · cases action
    · rcases h : eng.promote mid with e | mm <;> simp [h]
    · rcases h : eng.retry mid with e | mm <;> simp [h]
    · rcases h : eng.reattach mid with e | mm <;> simp [h]

lemma account_commands_no_panic (eng : Engine) (toks : List String) (cmd : AccountCmd)
    (hp : parseAccountCommand toks = Except.ok cmd) (m : String)
    (htotal : ∀ x, ∃ n, eng.address_available_balance x = Except.ok n) :
    (account_commands eng cmd).2 ≠ Outcome.panicked m := by
  cases cmd with
  | listMessages i t =>
    rw [account_commands_listMessages]
    cases i with
    | some id =>
      simp only [list_messages_command]
      rcases hmid : messageIdFromStr id with _ | mid
      · simp
      · rcases hg : eng.get_message mid with _ | msg <;> simp [hg]
    | none =>
      cases t with
      | none =>
        simp only [list_messages_command]
        exact listMessagesRest_no_panic eng none m
      | some ts =>
        have hv : validTypeStrings.contains ts = true := by
          simpa [typeOK] using parse_ok_typeOK toks _ hp
        have hmem : ts = "received" ∨ ts = "sent" ∨ ts = "failed" ∨
            ts = "unconfirmed" ∨ ts = "value" := by
          have : ts ∈ validTypeStrings := by simpa using hv
          simpa [validTypeStrings] using this
        rcases hmem with h1 | h1 | h1 | h1 | h1 <;> subst h1
        · exact listMessagesRest_no_panic eng (some MessageType.received) m
        · exact listMessagesRest_no_panic eng (some MessageType.sent) m
        · exact listMessagesRest_no_panic eng (some MessageType.failed) m
        · exact listMessagesRest_no_panic eng (some MessageType.unconfirmed) m
        · exact listMessagesRest_no_panic eng (some MessageType.value) m
  | listAddresses =>
    rw [account_commands_listAddresses]
    simp only [list_addresses_command]
    split
    · simp
    · exact printAddressList_no_panic eng _ m htotal
  | syncCmd g =>
    rw [account_commands_sync]
    simp only [sync_account_command]
    have hrest : ∀ (d : SyncedData) (pre : List Effect),
        ((Step.seq (pre, Outcome.ok)
          ((printAddressList eng d.addresses).seq
            ((d.messages.map print_message).flatten, Outcome.ok))).2 ≠
          Outcome.panicked m) := by
      intro d pre hcontra
      rcases Step.seq_panicked hcontra with h | h
      · simp at h
      · rcases Step.seq_panicked h with h2 | h2
        · exact printAddressList_no_panic eng _ m htotal h2
        · simp at h2
    cases g with
    | none =>
      rcases h : eng.sync_execute none with e | d
      · simp [h]
      · simpa [h] using hrest d [Effect.engSync none]
    | some gs =>
      rcases hg : parseRustU64 gs with _ | limit
      · simp [hg]
      · rcases h : eng.sync_execute (some limit) with e | d
        · simp [hg, h]
        · simpa [hg, h] using hrest d
            [Effect.print ("Syncing with gap limit " ++ toString limit),
             Effect.engSync (some limit)]
  | address =>
    rw [account_commands_address]
    simp only [generate_address_command]
    rcases h : eng.generate_address with e | a
    · simp [h]
    · simp only [h]
      intro hcontra
      rcases Step.seq_panicked hcontra with h2 | h2
      · simp at h2
      · exact print_address_no_panic eng a m htotal h2
  | balance =>
    rw [account_commands_balance]
    simp only [balance_command]
    rcases h : eng.balance with e | s <;> simp [h]
  | transfer a amt =>
    rw [account_commands_transfer]
    simp only [transfer_command]
    rcases hpa : eng.parse_address a with _ | b
    · simp
    · rcases hamt : parseRustU64 amt with _ | n
      · simp
      · rcases Nat.eq_zero_or_pos n with h0 | h0
        · subst h0
          simp
        · rcases h : eng.transfer b n with e | mm <;>
            simp [Nat.pos_iff_ne_zero.mp h0, h]
  | promote v =>
    rw [account_commands_promote]
    simp only [promote_message_command]
    exact replay_message_no_panic eng ReplayAction.Promote v m
  | retry v =>
    rw [account_commands_retry]
    simp only [retry_message_command]
    exact replay_message_no_panic eng ReplayAction.Retry v m
  | reattach v =>
    rw [account_commands_reattach]
    simp only [reattach_message_command]
    exact replay_message_no_panic eng ReplayAction.Reattach v m
  | setNode u =>
    rw [account_commands_setNode]
    simp only [set_node_command]
    rcases h : eng.set_client_options u with e | x <;> simp [h]
  | setAlias s =>
    rw [account_commands_setAlias]
    simp only [set_alias_command]
    rcases h : eng.set_alias s with e | x <;> simp [h]
  | exitCmd =>
    rw [account_commands_exitCmd]
    simp

lemma account_prompt_internal_exited_iff (eng : Engine) (line : String) :
    (account_prompt_internal eng line).2 = PromptStep.exited ↔
      parseAccountCommand (splitLine line) = Except.ok AccountCmd.exitCmd := by
  unfold account_prompt_internal
  by_cases h1 : line = "h"
  · subst h1
    rw [if_pos rfl]
    simp [show parseAccountCommand (splitLine "h") =
      Except.error "error: unrecognized command or arguments" from rfl]
  · by_cases h2 : line = "clear"
    · subst h2
      rw [if_neg h1, if_pos rfl]
      simp [show parseAccountCommand (splitLine "clear") =
        Except.error "error: unrecognized command or arguments" from rfl]
    · rw [if_neg h1, if_neg h2]
      rcases hp : parseAccountCommand (splitLine line) with e | cmd
      · simp
      · by_cases hx : cmd = AccountCmd.exitCmd
        · subst hx
          simp
        · rcases hd : account_commands eng cmd with ⟨tr, o⟩
          cases o <;> simp [hd, hx]

lemma account_prompt_internal_no_abort (eng : Engine) (line m : String)
    (htotal : ∀ x, ∃ n, eng.address_available_balance x = Except.ok n) :
    (account_prompt_internal eng line).2 ≠ PromptStep.aborted m := by
  unfold account_prompt_internal
  by_cases h1 : line = "h"
  · subst h1
    simp
  · by_cases h2 : line = "clear"
    · subst h2
      rw [if_neg h1, if_pos rfl]
      simp
    · rw [if_neg h1, if_neg h2]
      rcases hp : parseAccountCommand (splitLine line) with e | cmd
      · simp
      · by_cases hx : cmd = AccountCmd.exitCmd
        · subst hx
          simp
        · rcases hd : account_commands eng cmd with ⟨tr, o⟩
          cases o with
          | ok => simp [hd, hx]
          | err e => simp [hd, hx]
          | panicked pm =>
            exfalso
            have hnp := account_commands_no_panic eng (splitLine line) cmd hp pm htotal
            rw [hd] at hnp
            exact hnp rfl

lemma account_prompt_internal_parse_err (eng : Engine) (line e : String)
    (h1 : line ≠ "h") (h2 : line ≠ "clear")
    (hp : parseAccountCommand (splitLine line) = Except.error e) :
    account_prompt_internal eng line = ([Effect.print e], PromptStep.continued) := by
  unfold account_prompt_internal
  rw [if_neg h1, if_neg h2, hp]

lemma account_prompt_internal_dispatch_err (eng : Engine) (line : String) (cmd : AccountCmd)
    (tr : List Effect) (e : String)
    (h1 : line ≠ "h") (h2 : line ≠ "clear")
    (hp : parseAccountCommand (splitLine line) = Except.ok cmd)
    (hx : cmd ≠ AccountCmd.exitCmd)
    (hd : account_commands eng cmd = (tr, Outcome.err e)) :
    account_prompt_internal eng line =
      (tr ++ [Effect.print ("ERROR: " ++ e)], PromptStep.continued) := by
  unfold account_prompt_internal
  rw [if_neg h1, if_neg h2, hp]
  simp [hx, hd]

lemma account_prompt_internal_dispatch_ok (eng : Engine) (line : String) (cmd : AccountCmd)
    (tr : List Effect)
    (h1 : line ≠ "h") (h2 : line ≠ "clear")
    (hp : parseAccountCommand (splitLine line) = Except.ok cmd)
    (hx : cmd ≠ AccountCmd.exitCmd)
    (hd : account_commands eng cmd = (tr, Outcome.ok)) :
    account_prompt_internal eng line = (tr, PromptStep.continued) := by
  unfold account_prompt_internal
  rw [if_neg h1, if_neg h2, hp]
  simp [hx, hd]

lemma account_prompt_exited_iff (eng : Engine) (lines : List String)
    (htotal : ∀ x, ∃ n, eng.address_available_balance x = Except.ok n) :
    (account_prompt eng lines).2 = some PromptStep.exited ↔
      ∃ line ∈ lines, parseAccountCommand (splitLine line) = Except.ok AccountCmd.exitCmd := by
  induction lines with
  | nil => simp [account_prompt]
  | cons line rest ih =>
    simp only [account_prompt]
    rcases hi : account_prompt_internal eng line with ⟨tr, s⟩
    cases s with
    | continued =>
      have hne : ¬parseAccountCommand (splitLine line) = Except.ok AccountCmd.exitCmd := by
        intro hc
        have := (account_prompt_internal_exited_iff eng line).mpr hc
        rw [hi] at this
        cases this
      simp only []
      rw [ih]
      simp [hne]
    | exited =>
      have hx : parseAccountCommand (splitLine line) = Except.ok AccountCmd.exitCmd := by
        apply (account_prompt_internal_exited_iff eng line).mp
        rw [hi]
      simp [hx]
    | aborted am =>
      exfalso
      have := account_prompt_internal_no_abort eng line am htotal
      rw [hi] at this
      exact this rfl

lemma account_prompt_no_abort (eng : Engine) (lines : List String) (m : String)
    (htotal : ∀ x, ∃ n, eng.address_available_balance x = Except.ok n) :
    (account_prompt eng lines).2 ≠ some (PromptStep.aborted m) := by
  induction lines with
  | nil => simp [account_prompt]
  | cons line rest ih =>
    simp only [account_prompt]
    rcases hi : account_prompt_internal eng line with ⟨tr, s⟩
    cases s with
    | continued => simpa using ih
    | exited => simp
    | aborted am =>
      exfalso
      have := account_prompt_internal_no_abort eng line am htotal
      rw [hi] at this
      exact this rfl

lemma account_prompt_exited_onlyif (eng : Engine) (lines : List String)
    (h : (account_prompt eng lines).2 = some PromptStep.exited) :
    ∃ line ∈ lines, parseAccountCommand (splitLine line) = Except.ok AccountCmd.exitCmd := by
  induction lines with
  | nil => simp [account_prompt] at h
  | cons line rest ih =>
    simp only [account_prompt] at h
    rcases hi : account_prompt_internal eng line with ⟨tr, s⟩
    rw [hi] at h
    cases s with
    | continued =>
      simp only [] at h
      obtain ⟨l, hl, hpl⟩ := ih h
      exact ⟨l, List.mem_cons_of_mem _ hl, hpl⟩
    | exited =>
      refine ⟨line, List.mem_cons_self _ _, ?_⟩
      apply (account_prompt_internal_exited_iff eng line).mp
      rw [hi]
    | aborted am => simp at h

lemma account_prompt_internal_abort_source (eng : Engine) (line m : String)
    (h : (account_prompt_internal eng line).2 = PromptStep.aborted m) :
    ∃ cmd, parseAccountCommand (splitLine line) = Except.ok cmd ∧
      (account_commands eng cmd).2 = Outcome.panicked m := by
  by_cases h1 : line = "h"
  · rw [show account_prompt_internal eng line =
        ([Effect.print accountHelpText], PromptStep.continued) by
      unfold account_prompt_internal
      rw [if_pos h1]] at h
    simp at h
  · by_cases h2 : line = "clear"
    · rw [show account_prompt_internal eng line =
          ([Effect.clearScreen], PromptStep.continued) by
        unfold account_prompt_internal
        rw [if_neg h1, if_pos h2]] at h
      simp at h
    · rcases hp : parseAccountCommand (splitLine line) with e | cmd
      · rw [account_prompt_internal_parse_err eng line e h1 h2 hp] at h
        simp at h
      · by_cases hx : cmd = AccountCmd.exitCmd
        · rw [show account_prompt_internal eng line = ([], PromptStep.exited) by
            unfold account_prompt_internal
            rw [if_neg h1, if_neg h2, hp]
            simp [hx]] at h
          simp at h
        · rcases hd : account_commands eng cmd with ⟨tr, o⟩
          cases o with
          | ok =>
            rw [account_prompt_internal_dispatch_ok eng line cmd tr h1 h2 hp hx hd] at h
            simp at h
          | err e =>
            rw [account_prompt_internal_dispatch_err eng line cmd tr e h1 h2 hp hx hd] at h
            simp at h
          | panicked pm =>
            have heq : account_prompt_internal eng line = (tr, PromptStep.aborted pm) := by
              unfold account_prompt_internal
              rw [if_neg h1, if_neg h2, hp]
              simp [hx, hd]
            rw [heq] at h
            have h3 : PromptStep.aborted pm = PromptStep.aborted m := h
            cases h3
            exact ⟨cmd, rfl, by rw [hd]⟩

/-- A concrete engine instance used by the witness theorems. -/
def engDefault : Engine where
  parse_address := fun s => if s = "atoi1qxyz" then some ⟨s⟩ else none
  transfer := fun _ _ => Except.ok ⟨"m", none, 0, true, none⟩
  get_message := fun _ => none
  list_messages := fun _ => Except.ok []
  promote := fun _ => Except.error "engine error"
  retry := fun _ => Except.error "engine error"
  reattach := fun _ => Except.error "engine error"
  sync_execute := fun _ => Except.ok ⟨[], []⟩
  generate_address := Except.ok ⟨"atoi1qxyz", 0, 0, false⟩
  balance := Except.ok "balance record"
  set_client_options := fun _ => Except.ok ()
  set_alias := fun _ => Except.ok ()
  address_available_balance := fun _ => Except.ok 0
  account := ⟨"alice", "id0", []⟩
  get_account := fun _ => none
  remove_account := fun _ => Except.ok ()
  create_account := fun _ => Except.ok ⟨"bob", "id1", []⟩
  sync_accounts := Except.ok 0
  backup := fun _ => Except.ok "full-path"
  import_accounts := fun _ => Except.ok ()

/-- An engine identical to `engDefault` except that its account owns one
address and the available-balance lookup fails, so the `.unwrap()` in
`print_address` panics. -/
def engFail : Engine :=
  { engDefault with
    account := ⟨"alice", "id0", [⟨"atoi1qxyz", 7, 0, false⟩]⟩,
    address_available_balance := fun _ => Except.error "account isn\x27t loaded" }

/-- Counterexample for claim C5 as stated: the input `list-addresses` does
not parse to the `exit` command, yet with an engine whose available-balance
lookup fails the unwrapped engine error panics and the prompt loop
terminates by abort instead of continuing. -/
theorem repl_loop_abort_on_balance_unwrap_counterexample :
    (account_prompt engFail ["list-addresses"]).2 =
      some (PromptStep.aborted "account isn\x27t loaded")
    ∧ parseAccountCommand (splitLine "list-addresses") ≠ Except.ok AccountCmd.exitCmd :=
  ⟨rfl, by
    rw [show parseAccountCommand (splitLine "list-addresses") =
      Except.ok AccountCmd.listAddresses from rfl]
    simp⟩

/-- Claim C5 as amended: the prompt loop leaves the account prompt only when
a line parses to the `exit` command or when a dispatched handler panics (the
unwrapped available-balance engine failure inside address printing); grammar
parse failures are reported with the parser's message and dispatch errors via
the error sink, and the loop continues; in particular, whenever the engine's
available-balance lookup never fails, the loop never aborts and terminates
exactly on `exit`. -/
theorem repl_loop_exit_and_abort_characterization (eng : Engine) (lines : List String) :
    ((account_prompt eng lines).2 = some PromptStep.exited →
      ∃ line ∈ lines, parseAccountCommand (splitLine line) = Except.ok AccountCmd.exitCmd)
    ∧ (∀ line, (account_prompt_internal eng line).2 = PromptStep.exited ↔
        parseAccountCommand (splitLine line) = Except.ok AccountCmd.exitCmd)
    ∧ (∀ line m, (account_prompt_internal eng line).2 = PromptStep.aborted m →
        ∃ cmd, parseAccountCommand (splitLine line) = Except.ok cmd ∧
          (account_commands eng cmd).2 = Outcome.panicked m)
    ∧ ((∀ x, ∃ n, eng.address_available_balance x = Except.ok n) →
        (((account_prompt eng lines).2 = some PromptStep.exited ↔
          ∃ line ∈ lines, parseAccountCommand (splitLine line) = Except.ok AccountCmd.exitCmd)
        ∧ (∀ m, (account_prompt eng lines).2 ≠ some (PromptStep.aborted m))))
    ∧ (∀ line e, line ≠ "h" → line ≠ "clear" →
        parseAccountCommand (splitLine line) = Except.error e →
        account_prompt_internal eng line = ([Effect.print e], PromptStep.continued))
    ∧ (∀ line cmd tr e, line ≠ "h" → line ≠ "clear" →
        parseAccountCommand (splitLine line) = Except.ok cmd →
        cmd ≠ AccountCmd.exitCmd →
        account_commands eng cmd = (tr, Outcome.err e) →
        account_prompt_internal eng line =
          (tr ++ [Effect.print ("ERROR: " ++ e)], PromptStep.continued)) := by
  refine ⟨fun h => account_prompt_exited_onlyif eng lines h,
    fun line => account_prompt_internal_exited_iff eng line,
    fun line m h => account_prompt_internal_abort_source eng line m h,
    fun htotal => ⟨account_prompt_exited_iff eng lines htotal,
      fun m => account_prompt_no_abort eng lines m htotal⟩,
    fun line e h1 h2 hp => account_prompt_internal_parse_err eng line e h1 h2 hp,
    fun line cmd tr e h1 h2 hp hx hd =>
      account_prompt_internal_dispatch_err eng line cmd tr e h1 h2 hp hx hd⟩

/-- Witness for the amended C5: under an engine whose available-balance
lookups always succeed, a parse failure is tolerated and a subsequent `exit`
terminates the prompt loop. -/
theorem repl_loop_exit_and_abort_characterization_witness :
    (account_prompt engDefault ["bogus input", "exit"]).2 = some PromptStep.exited :=
  (((repl_loop_exit_and_abort_characterization engDefault
      ["bogus input", "exit"]).2.2.2.1 (fun x => ⟨0, rfl⟩)).1).mpr
    ⟨"exit", by simp, by rfl⟩

lemma splitLine_ne_special {line x y : String} {rest : List String}
    (hsplit : splitLine line = x :: y :: rest) : line ≠ "h" ∧ line ≠ "clear" := by
  constructor
  · intro h
    rw [h, show splitLine "h" = ["h"] from rfl] at hsplit
    simp at hsplit
  · intro h
    rw [h, show splitLine "clear" = ["clear"] from rfl] at hsplit
    simp at hsplit

/-- Claim C1: for every transfer command whose amount argument is zero or not
an unsigned-integer string, the engine transfer operation is never invoked;
a specific error is produced before any engine call (for a valid bech32
address and amount 0 the printed line is `ERROR: amount can't be zero`), and
the account prompt redisplays (the loop continues). -/
theorem transfer_zero_or_nonnumeric_never_calls_engine
    (eng : Engine) (line addrStr amtStr : String)
    (hsplit : splitLine line = ["transfer", "--address", addrStr, "--amount", amtStr])
    (hamt : parseRustU64 amtStr = some 0 ∨ parseRustU64 amtStr = none) :
    (∀ a n, Effect.engTransfer a n ∉ (account_prompt_internal eng line).1)
    ∧ (account_prompt_internal eng line).2 = PromptStep.continued
    ∧ (∀ b, eng.parse_address addrStr = some b → parseRustU64 amtStr = some 0 →
        account_prompt_internal eng line =
          ([Effect.print "ERROR: amount can\x27t be zero"], PromptStep.continued)) := by
  obtain ⟨hne1, hne2⟩ := splitLine_ne_special hsplit
  have hparse : parseAccountCommand (splitLine line) =
      Except.ok (AccountCmd.transfer addrStr amtStr) := by
    rw [hsplit]
    rfl
  have hkey : ∃ msg, transfer_command eng (AccountCmd.transfer addrStr amtStr) =
      ([], Outcome.err msg) ∧
      (∀ b, eng.parse_address addrStr = some b → parseRustU64 amtStr = some 0 →
        msg = "amount can\x27t be zero") := by
    rcases hpa : eng.parse_address addrStr with _ | b
    · refine ⟨"Address must be a bech32 string", ?_, ?_⟩
      · simp [transfer_command, hpa]
      · intro b hb
        cases hb
    · rcases hamt with h0 | h0
      · refine ⟨"amount can\x27t be zero", ?_, fun b1 hb hz => rfl⟩
        simp [transfer_command, hpa, h0]
      · refine ⟨"Amount must be a number", ?_, ?_⟩
        · simp [transfer_command, hpa, h0]
        · intro b1 hb hz
          rw [hz] at h0
          cases h0
  rcases hkey with ⟨msg, hmsg, hspec⟩
  have hac : account_commands eng (AccountCmd.transfer addrStr amtStr) =
      ([], Outcome.err msg) := by
    rw [account_commands_transfer, hmsg]
  have hint : account_prompt_internal eng line =
      ([Effect.print ("ERROR: " ++ msg)], PromptStep.continued) := by
    have h := account_prompt_internal_dispatch_err eng line
      (AccountCmd.transfer addrStr amtStr) [] msg hne1 hne2 hparse (by simp) hac
    simpa using h
  refine ⟨?_, ?_, ?_⟩
  · intro a n
    rw [hint]
    simp
  · rw [hint]
  · intro b hb hz
    rw [hint, hspec b hb hz]
    rfl

/-- Witness for C1: a concrete zero-amount transfer with a valid address
prints the specific error and the prompt continues. -/
theorem transfer_zero_or_nonnumeric_never_calls_engine_witness :
    account_prompt_internal engDefault "transfer --address atoi1qxyz --amount 0" =
      ([Effect.print "ERROR: amount can\x27t be zero"], PromptStep.continued) :=
  (transfer_zero_or_nonnumeric_never_calls_engine engDefault
      "transfer --address atoi1qxyz --amount 0" "atoi1qxyz" "0" rfl
      (Or.inl rfl)).2.2 ⟨"atoi1qxyz"⟩ rfl rfl

/-- Claim C4: a fresh random mnemonic is generated and stored under the
default signer exactly when the invocation is not an import, no keystore file
is present under the storage path, and no explicit `mnemonic` command was
executed. -/
theorem fresh_mnemonic_iff_first_run (args : List String) (keystoreExists : Bool)
    (explicitMnemonic : Option String) :
    Effect.engStoreMnemonic none ∈
        run_mnemonic_phase (is_importing args) keystoreExists explicitMnemonic ↔
      is_importing args = false ∧ keystoreExists = false ∧ explicitMnemonic = none := by
  cases h : is_importing args <;> cases keystoreExists <;>
    rcases explicitMnemonic with _ | m <;>
      simp [run_mnemonic_phase, store_mnemonic_command]

/-- Claim C6: a message-id argument that is not a hex string of exactly 64
hex characters never reaches the engine: `list-messages --id`, `promote`,
`retry` and `reattach` all print
`Message id must be a hex string of length 64` and complete without error. -/
theorem malformed_message_id_never_calls_engine
    (eng : Engine) (id : String) (t : Option String) (action : ReplayAction)
    (hbad : ¬(id.length = 64 ∧ id.toList.all isHexChar = true)) :
    list_messages_command eng (AccountCmd.listMessages (some id) t) =
      ([Effect.print "Message id must be a hex string of length 64"], Outcome.ok)
    ∧ replay_message eng action id =
      ([Effect.print "Message id must be a hex string of length 64"], Outcome.ok)
    ∧ promote_message_command eng (AccountCmd.promote id) =
      ([Effect.print "Message id must be a hex string of length 64"], Outcome.ok)
    ∧ retry_message_command eng (AccountCmd.retry id) =
      ([Effect.print "Message id must be a hex string of length 64"], Outcome.ok)
    ∧ reattach_message_command eng (AccountCmd.reattach id) =
      ([Effect.print "Message id must be a hex string of length 64"], Outcome.ok) := by
  have hmid : messageIdFromStr id = none := by
    unfold messageIdFromStr
    rw [if_neg hbad]
  have hreplay : ∀ act, replay_message eng act id =
      ([Effect.print "Message id must be a hex string of length 64"], Outcome.ok) := by
    intro act
    unfold replay_message
    rw [hmid]
  refine ⟨?_, hreplay action, ?_, ?_, ?_⟩
  · simp [list_messages_command, hmid]
  · simp [promote_message_command, hreplay]
  · simp [retry_message_command, hreplay]
  · simp [reattach_message_command, hreplay]

/-- Witness for C6: the 8-character id `deadbeef` is rejected without any
engine call. -/
theorem malformed_message_id_never_calls_engine_witness :
    list_messages_command engDefault (AccountCmd.listMessages (some "deadbeef") none) =
      ([Effect.print "Message id must be a hex string of length 64"], Outcome.ok) :=
  (malformed_message_id_never_calls_engine engDefault "deadbeef" none
    ReplayAction.Promote (by decide)).1

lemma unlock_loop_terminates_iff (accepts : String → Bool) (pws : List String) :
    (unlock_loop accepts pws).2 = true ↔ ∃ p ∈ pws, accepts p = true := by
  induction pws with
  | nil => simp [unlock_loop]
  | cons p rest ih =>
    by_cases h : accepts p
    · simp [unlock_loop, h]
    · simp only [unlock_loop, h]
      simp [ih, h]

lemma unlock_loop_trace (accepts : String → Bool) (pws : List String) :
    (unlock_loop accepts pws).1 =
      ((pws.takeWhile fun p => !accepts p).map fun p =>
        [Effect.engUnlock p, Effect.print "Wrong password. Try again."]).flatten
      ++ (match (pws.dropWhile fun p => !accepts p).head? with
          | some p => [Effect.engUnlock p]
          | none => []) := by
  induction pws with
  | nil => simp [unlock_loop]
  | cons p rest ih =>
    by_cases h : accepts p
    · simp [unlock_loop, h, List.takeWhile_cons, List.dropWhile_cons]
    · simp [unlock_loop, h, List.takeWhile_cons, List.dropWhile_cons, ih]

/-- Claim C9: unless the invocation is an import (detected by scanning the raw
arguments for `import`, in which case unlock is skipped entirely), the
bootstrap unlock loop solicits passwords, prints `Wrong password. Try again.`
after each failed attempt, and terminates exactly when the engine accepts a
supplied password. -/
theorem unlock_skipped_on_import_and_terminates_iff_accepted
    (args : List String) (accepts : String → Bool) (attempts : List String) :
    (is_importing args = true → bootstrap_unlock args accepts attempts = ([], true))
    ∧ (is_importing args = false →
        (((bootstrap_unlock args accepts attempts).2 = true ↔
            ∃ p ∈ attempts, accepts p = true)
        ∧ (bootstrap_unlock args accepts attempts).1 =
            ((attempts.takeWhile fun p => !accepts p).map fun p =>
              [Effect.engUnlock p, Effect.print "Wrong password. Try again."]).flatten
            ++ (match (attempts.dropWhile fun p => !accepts p).head? with
                | some p => [Effect.engUnlock p]
                | none => [])))
    ∧ (∀ p rest, accepts p = false →
        unlock_loop accepts (p :: rest) =
          (Effect.engUnlock p :: Effect.print "Wrong password. Try again." ::
            (unlock_loop accepts rest).1, (unlock_loop accepts rest).2))
    ∧ (∀ p rest, accepts p = true →
        unlock_loop accepts (p :: rest) = ([Effect.engUnlock p], true)) := by
  refine ⟨?_, ?_, ?_, ?_⟩
  · intro h
    simp [bootstrap_unlock, h]
  · intro h
    rw [show bootstrap_unlock args accepts attempts = unlock_loop accepts attempts by
      simp [bootstrap_unlock, h]]
    exact ⟨unlock_loop_terminates_iff accepts attempts, unlock_loop_trace accepts attempts⟩
  · intro p rest h
    simp [unlock_loop, h]
  · intro p rest h
    simp [unlock_loop, h]

/-- Witness for C9: one wrong password prints the retry line and a following
correct password terminates the loop. -/
theorem unlock_skipped_on_import_and_terminates_iff_accepted_witness :
    (bootstrap_unlock ["wallet"] (fun p => p == "hunter2") ["bad", "hunter2"]).2 = true :=
  ((unlock_skipped_on_import_and_terminates_iff_accepted ["wallet"]
      (fun p => p == "hunter2") ["bad", "hunter2"]).2.1 rfl).1.mpr
    ⟨"hunter2", by simp, rfl⟩

lemma pick_loop_terminated_iff (accounts : List Account) (picks : List (Option Nat)) :
    (pick_loop accounts picks).2 = true ↔ none ∈ picks := by
  induction picks with
  | nil => simp [pick_loop]
  | cons p rest ih =>
    cases p with
    | none => simp [pick_loop]
    | some i => simp [pick_loop, ih]

lemma pick_loop_trace (accounts : List Account) (picks : List (Option Nat)) :
    (pick_loop accounts picks).1 =
      (picks.takeWhile Option.isSome).map
        (fun p => Effect.promptEntered (aliasAt accounts (p.getD 0))) := by
  induction picks with
  | nil => simp [pick_loop]
  | cons p rest ih =>
    cases p with
    | none => simp [pick_loop, List.takeWhile_cons]
    | some i => simp [pick_loop, ih, List.takeWhile_cons]

/-- Claim C3: with no command-line arguments (argc = 1), after bootstrap the
session enumerates accounts: zero accounts fall through with no prompt and
the no-command dispatch completes cleanly, one account enters that account's
prompt directly, several accounts loop on the picker until the user
cancels. -/
theorem no_args_interactive_selection
    (accounts : List Account) (picks : List (Option Nat)) (eng : Engine) :
    (accounts = [] →
      interactive_selection accounts 1 picks = ([], SelectionOutcome.fellThrough))
    ∧ (∀ a, accounts = [a] →
        interactive_selection accounts 1 picks =
          ([Effect.promptEntered a.aliasName], SelectionOutcome.returned))
    ∧ (2 ≤ accounts.length →
        (((interactive_selection accounts 1 picks).2 = SelectionOutcome.fellThrough ↔
            none ∈ picks)
        ∧ (interactive_selection accounts 1 picks).1 =
            (picks.takeWhile Option.isSome).map
              (fun p => Effect.promptEntered (aliasAt accounts (p.getD 0)))))
    ∧ run_dispatch eng TopCmd.noCmd = ([], Outcome.ok) := by
  refine ⟨?_, ?_, ?_, ?_⟩
  · intro h
    subst h
    rfl
  · intro a h
    subst h
    rfl
  · intro h
    rcases accounts with _ | ⟨a, _ | ⟨b, rest⟩⟩
    · simp at h
    · simp at h
    · constructor
      · rw [← pick_loop_terminated_iff (a :: b :: rest) picks]
        rcases hb : (pick_loop (a :: b :: rest) picks).2
        · simp [interactive_selection, hb]
        · simp [interactive_selection, hb]
      · simpa [interactive_selection] using pick_loop_trace (a :: b :: rest) picks
  · rfl

/-- Witness for C3: a single account enters its prompt directly. -/
theorem no_args_interactive_selection_witness :
    interactive_selection [⟨"alice", "id0", []⟩] 1 [] =
      ([Effect.promptEntered "alice"], SelectionOutcome.returned) :=
  (no_args_interactive_selection [⟨"alice", "id0", []⟩] [] engDefault).2.1
    ⟨"alice", "id0", []⟩ rfl

/-- The notification body computed by the balance-change worker. -/
def balanceBody (ev : BalanceChangeEvent) (acc : Account) : String :=
  (if ev.spent > 0 then toString ev.spent ++ " spent on address " ++ ev.addressBech32
   else toString ev.received ++ " received on address " ++ ev.addressBech32) ++
  " on `" ++ acc.aliasName ++ "`"

/-- The notification body computed by a message-event worker, beginning with
the tag of the event kind. -/
def messageBody (tag : String) (mev : MessageEvent) (acc : Account) : String :=
  tag ++ ": " ++ mev.messageIdStr ++ " on `" ++ acc.aliasName ++ "`"

/-- Claim C7: for every event delivered to the bridge (with its account
resolvable in the registry, which is an engine invariant), the worker makes
exactly one notification attempt, prints exactly one fallback line tagged
with the event kind iff the attempt failed, and never propagates a failure
back to the engine. -/
theorem event_worker_one_attempt_one_fallback
    (registry : String → Option Account) (notifySucceeds : Bool)
    (ev : BalanceChangeEvent) (mev : MessageEvent) (tag : String)
    (acc acc2 : Account)
    (hacc : registry ev.accountId = some acc)
    (hacc2 : registry mev.accountId = some acc2) :
    (balance_change_worker registry notifySucceeds ev =
      (Effect.notifyAttempt (balanceBody ev acc) ::
        (if notifySucceeds then []
         else [Effect.print ("[BALANCE] " ++ balanceBody ev acc)]),
       Outcome.ok))
    ∧ (message_listener_worker registry notifySucceeds tag mev =
      (Effect.notifyAttempt (messageBody tag mev acc2) ::
        (if notifySucceeds then [] else [Effect.print (messageBody tag mev acc2)]),
       Outcome.ok))
    ∧ ((balance_change_worker registry notifySucceeds ev).1.countP
        (fun e => match e with | Effect.notifyAttempt _ => true | _ => false) = 1)
    ∧ ((balance_change_worker registry notifySucceeds ev).1.countP
        (fun e => match e with | Effect.print _ => true | _ => false) =
          if notifySucceeds then 0 else 1)
    ∧ (balance_change_worker registry notifySucceeds ev).2 = Outcome.ok
    ∧ ((message_listener_worker registry notifySucceeds tag mev).1.countP
        (fun e => match e with | Effect.notifyAttempt _ => true | _ => false) = 1)
    ∧ ((message_listener_worker registry notifySucceeds tag mev).1.countP
        (fun e => match e with | Effect.print _ => true | _ => false) =
          if notifySucceeds then 0 else 1)
    ∧ (message_listener_worker registry notifySucceeds tag mev).2 = Outcome.ok := by
  refine ⟨?_, ?_, ?_, ?_, ?_, ?_, ?_, ?_⟩ <;>
    cases notifySucceeds <;>
      simp [balance_change_worker, message_listener_worker, hacc, hacc2,
        balanceBody, messageBody]

/-- Witness for C7: with the notification daemon failing, a received-balance
event produces exactly one fallback line. -/
theorem event_worker_one_attempt_one_fallback_witness :
    (balance_change_worker
        (fun i => if i = "id0" then some ⟨"alice", "id0", []⟩ else none) false
        ⟨"id0", "atoi1qxyz", 0, 42⟩).1.countP
      (fun e => match e with | Effect.print _ => true | _ => false) = 1 :=
  (event_worker_one_attempt_one_fallback
      (fun i => if i = "id0" then some ⟨"alice", "id0", []⟩ else none) false
      ⟨"id0", "atoi1qxyz", 0, 42⟩ ⟨"id0", "m0"⟩ "New transaction"
      ⟨"alice", "id0", []⟩ ⟨"alice", "id0", []⟩ rfl rfl).2.2.2.1

/-- Claim C10: for the top-level `account` and `delete` commands, an alias
that does not resolve to an existing account is not an error: the program
prints `Account not found`, the handler succeeds, the remaining top-level
handlers still execute and `run` completes normally. -/
theorem unknown_alias_not_an_error (eng : Engine) (a : String)
    (hno : eng.get_account a = none) :
    run_dispatch eng (TopCmd.accountCmd a) =
      ([Effect.print "Account not found"], Outcome.ok)
    ∧ run_dispatch eng (TopCmd.deleteCmd a) =
      ([Effect.print "Account not found"], Outcome.ok) := by
  constructor <;>
    simp [run_dispatch, select_account_command, new_account_phase, delete_account_command,
      sync_accounts_command, backup_command, import_command, Step.seq, hno]

/-- Witness for C10: the default engine knows no account `carol`. -/
theorem unknown_alias_not_an_error_witness :
    run_dispatch engDefault (TopCmd.accountCmd "carol") =
      ([Effect.print "Account not found"], Outcome.ok) :=
  (unknown_alias_not_an_error engDefault "carol" rfl).1

/-- Counterexample for claim C2: when `run` returns an error, `main` prints
the error in the `ERROR:` form but still returns unit, so the process exit
code is 0, not non-zero as the claim states. -/
theorem run_error_exit_code_zero_counterexample :
    rust_main (Except.error "boom") = (0, [Effect.print "ERROR: boom"]) := rfl

/-- Claim C2 as amended: the exit code is 0 on clean completion or clean
`exit`, and also 0 when `run` returns an error, in which case the error is
printed in the `ERROR: <message>` form of the output sink; only a rejection
by the external top-level parser exits the process with a non-zero code. -/
theorem exit_codes_amended (r : Except String Unit) :
    (rust_main r).1 = 0
    ∧ (∀ e, r = Except.error e → (rust_main r).2 = [Effect.print ("ERROR: " ++ e)])
    ∧ (r = Except.ok () → (rust_main r).2 = [])
    ∧ parser_reject_exit_code ≠ 0 := by
  rcases r with e | u
  · refine ⟨rfl, ?_, ?_, by decide⟩
    · intro e2 he
      cases he
      rfl
    · intro hk
      cases hk
  · refine ⟨rfl, ?_, fun _ => rfl, by decide⟩
    intro e2 he
    cases he

/-- Witness for the amended C2: a failing `run` still exits 0 and prints the
error line. -/
theorem exit_codes_amended_witness :
    (rust_main (Except.error "x")).2 = [Effect.print ("ERROR: " ++ "x")] :=
  (exit_codes_amended (Except.error "x")).2.1 "x" rfl

/-- Claim C8: every input-shape error — malformed hex id, non-integer gap,
malformed bech32, non-integer amount, zero amount, or an unknown enumerated
`--type` value for list-messages — is reported as a single human-readable
line and the REPL continues instead of aborting. -/
theorem input_shape_errors_one_line_and_continue (eng : Engine) :
    (∀ line idStr, splitLine line = ["list-messages", "--id", idStr] →
      messageIdFromStr idStr = none →
      account_prompt_internal eng line =
        ([Effect.print "Message id must be a hex string of length 64"],
         PromptStep.continued))
    ∧ (∀ line g, splitLine line = ["sync", "--gap", g] → parseRustU64 g = none →
      account_prompt_internal eng line =
        ([Effect.print "ERROR: Gap limit must be a number"], PromptStep.continued))
    ∧ (∀ line a m, splitLine line = ["transfer", "--address", a, "--amount", m] →
      eng.parse_address a = none →
      account_prompt_internal eng line =
        ([Effect.print "ERROR: Address must be a bech32 string"], PromptStep.continued))
    ∧ (∀ line a m b, splitLine line = ["transfer", "--address", a, "--amount", m] →
      eng.parse_address a = some b → parseRustU64 m = none →
      account_prompt_internal eng line =
        ([Effect.print "ERROR: Amount must be a number"], PromptStep.continued))
    ∧ (∀ line a m b, splitLine line = ["transfer", "--address", a, "--amount", m] →
      eng.parse_address a = some b → parseRustU64 m = some 0 →
      account_prompt_internal eng line =
        ([Effect.print "ERROR: amount can\x27t be zero"], PromptStep.continued))
    ∧ (∀ line t, splitLine line = ["list-messages", "--type", t] →
      t ∉ validTypeStrings →
      account_prompt_internal eng line =
        ([Effect.print "error: invalid value for --type"], PromptStep.continued)) := by
  refine ⟨?_, ?_, ?_, ?_, ?_, ?_⟩
  · intro line idStr hsplit hbad
    obtain ⟨h1, h2⟩ := splitLine_ne_special hsplit
    have hparse : parseAccountCommand (splitLine line) =
        Except.ok (AccountCmd.listMessages (some idStr) none) := by
      rw [hsplit]
      rfl
    have hd : account_commands eng (AccountCmd.listMessages (some idStr) none) =
        ([Effect.print "Message id must be a hex string of length 64"], Outcome.ok) := by
      rw [account_commands_listMessages]
      simp [list_messages_command, hbad]
    exact account_prompt_internal_dispatch_ok eng line _ _ h1 h2 hparse (by simp) hd
  · intro line g hsplit hg
    obtain ⟨h1, h2⟩ := splitLine_ne_special hsplit
    have hparse : parseAccountCommand (splitLine line) =
        Except.ok (AccountCmd.syncCmd (some g)) := by
      rw [hsplit]
      rfl
    have hd : account_commands eng (AccountCmd.syncCmd (some g)) =
        ([], Outcome.err "Gap limit must be a number") := by
      rw [account_commands_sync]
      simp [sync_account_command, hg]
    have h := account_prompt_internal_dispatch_err eng line _ [] _ h1 h2 hparse (by simp) hd
    simpa using h
  · intro line a m hsplit hpa
    obtain ⟨h1, h2⟩ := splitLine_ne_special hsplit
    have hparse : parseAccountCommand (splitLine line) =
        Except.ok (AccountCmd.transfer a m) := by
      rw [hsplit]
      rfl
    have hd : account_commands eng (AccountCmd.transfer a m) =
        ([], Outcome.err "Address must be a bech32 string") := by
      rw [account_commands_transfer]
      simp [transfer_command, hpa]
    have h := account_prompt_internal_dispatch_err eng line _ [] _ h1 h2 hparse (by simp) hd
    simpa using h
  · intro line a m b hsplit hpa hm
    obtain ⟨h1, h2⟩ := splitLine_ne_special hsplit
    have hparse : parseAccountCommand (splitLine line) =
        Except.ok (AccountCmd.transfer a m) := by
      rw [hsplit]
      rfl
    have hd : account_commands eng (AccountCmd.transfer a m) =
        ([], Outcome.err "Amount must be a number") := by
      rw [account_commands_transfer]
      simp [transfer_command, hpa, hm]
    have h := account_prompt_internal_dispatch_err eng line _ [] _ h1 h2 hparse (by simp) hd
    simpa using h
  · intro line a m b hsplit hpa hm
    obtain ⟨h1, h2⟩ := splitLine_ne_special hsplit
    have hparse : parseAccountCommand (splitLine line) =
        Except.ok (AccountCmd.transfer a m) := by
      rw [hsplit]
      rfl
    have hd : account_commands eng (AccountCmd.transfer a m) =
        ([], Outcome.err "amount can\x27t be zero") := by
      rw [account_commands_transfer]
      simp [transfer_command, hpa, hm]
    have h := account_prompt_internal_dispatch_err eng line _ [] _ h1 h2 hparse (by simp) hd
    simpa using h
  · intro line t hsplit ht
    obtain ⟨h1, h2⟩ := splitLine_ne_special hsplit
    have hc : validTypeStrings.contains t = false := by
      rw [Bool.eq_false_iff]
      intro hcon
      exact ht (by simpa using hcon)
    have hparse : parseAccountCommand (splitLine line) =
        Except.error "error: invalid value for --type" := by
      rw [hsplit]
      unfold parseAccountCommand
      rw [show rawParseAccountCommand ["list-messages", "--type", t] =
        Except.ok (AccountCmd.listMessages none (some t)) from rfl]
      simp [validateCmd, typeOK, hc, ht]
    exact account_prompt_internal_parse_err eng line _ h1 h2 hparse

/-- Witness for C8: a non-integer gap limit is reported in one line and the
prompt continues. -/
theorem input_shape_errors_one_line_and_continue_witness :
    account_prompt_internal engDefault "sync --gap many" =
      ([Effect.print "ERROR: Gap limit must be a number"], PromptStep.continued) :=
  (input_shape_errors_one_line_and_continue engDefault).2.1 "sync --gap many" "many" rfl rfl

/-- Witness for C4: with no import argument, no keystore file and no explicit
mnemonic command, the fresh random mnemonic store is reached. -/
theorem fresh_mnemonic_iff_first_run_witness :
    Effect.engStoreMnemonic none ∈
      run_mnemonic_phase (is_importing ["wallet"]) false none :=
  (fresh_mnemonic_iff_first_run ["wallet"] false none).mpr ⟨rfl, rfl, rfl⟩

end CliWallet
